import Mathlib

/-!
Shallow embedding of the `starknet-prove-core` and `starknet-prove-stone`
crates: the `Layout` enumeration with its name table, the `Display`
formatting path, and the Stone subprocess orchestrator (`make_command`,
`error_message`, `StoneProver::prove`) together with the launch profile the
orchestrator configures on the child command.
-/

/-- Rust's `Result` type: a success value or an error value. -/
inductive RustResult (ε α : Type) where
  | ok (v : α)
  | err (e : ε)
deriving DecidableEq, Repr

/-- The nine execution layouts, from `starknet-prove-core/src/lib.rs`. -/
inductive Layout where
  | Plain
  | Small
  | Dex
  | Recursive
  | Starknet
  | RecursiveLargeOutput
  | AllCairo
  | AllSolidity
  | StarknetWithKeccak
deriving DecidableEq, Repr

/-- `Layout::name`: the snake-case canonical name of each layout. -/
def Layout.name : Layout → String
  | .Plain => "plain"
  | .Small => "small"
  | .Dex => "dex"
  | .Recursive => "recursive"
  | .Starknet => "starknet"
  | .RecursiveLargeOutput => "recursive_large_output"
  | .AllCairo => "all_cairo"
  | .AllSolidity => "all_solidity"
  | .StarknetWithKeccak => "starknet_with_keccak"

/-- The table of canonical layout names, in declaration order. -/
def Layout.canonicalNames : List String :=
  ["plain", "small", "dex", "recursive", "starknet",
   "recursive_large_output", "all_cairo", "all_solidity", "starknet_with_keccak"]

/-- `<Layout as FromStr>::from_str`: the match over the nine fixed strings;
anything else yields the payload-less error `Err(())`. -/
def Layout.fromStr (s : String) : RustResult Unit Layout :=
  if s = "plain" then .ok .Plain
  else if s = "small" then .ok .Small
  else if s = "dex" then .ok .Dex
  else if s = "recursive" then .ok .Recursive
  else if s = "starknet" then .ok .Starknet
  else if s = "recursive_large_output" then .ok .RecursiveLargeOutput
  else if s = "all_cairo" then .ok .AllCairo
  else if s = "all_solidity" then .ok .AllSolidity
  else if s = "starknet_with_keccak" then .ok .StarknetWithKeccak
  else .err ()

/-- Alignment requested by a format string, as in Rust `core::fmt`. -/
inductive FmtAlignment where
  | left
  | right
  | center
deriving DecidableEq, Repr

/-- The formatting options of a Rust `Formatter` that `Formatter::pad`
consults: an optional minimum width, an optional precision, the fill
character and the alignment. -/
structure FmtSpec where
  width : Option Nat
  precision : Option Nat
  fill : Char
  align : FmtAlignment
deriving Repr

/-- The options of a default `Formatter`, as produced by `format!("{}", _)`:
no width, no precision, fill with a space, left alignment for strings. -/
def FmtSpec.default : FmtSpec :=
  { width := none, precision := none, fill := ' ', align := FmtAlignment.left }

/-- `Formatter::pad` from Rust `core::fmt` (the library routine that the
`Display` impl of `Layout` delegates to): truncate to `precision`
characters when set, then pad with `fill` up to `width` when set. -/
def padStr (f : FmtSpec) (s : String) : String :=
  let t : String :=
    match f.precision with
    | some p => String.mk (s.data.take p)
    | none => s
  match f.width with
  | none => t
  | some w =>
    if t.data.length ≥ w then t
    else
      match f.align with
      | .left => t ++ String.mk (List.replicate (w - t.data.length) f.fill)
      | .right => String.mk (List.replicate (w - t.data.length) f.fill) ++ t
      | .center =>
        let pre := (w - t.data.length) / 2
        let post := w - t.data.length - pre
        String.mk (List.replicate pre f.fill) ++ t ++ String.mk (List.replicate post f.fill)

/-- `<Layout as fmt::Display>::fmt`: the impl calls `f.pad(self.name())`. -/
def Layout.fmtDisplay (f : FmtSpec) (v : Layout) : String :=
  padStr f v.name

/-- True when `b` is a UTF-8 continuation byte (`0x80 ..= 0xBF`). -/
def isUtf8Cont (b : Nat) : Bool :=
  0x80 ≤ b && b < 0xC0

/-- Strict UTF-8 decoding of a byte sequence, as `String::from_utf8`
performs it: rejects stray continuation bytes, overlong encodings
(lead bytes `0xC0`/`0xC1` and short code points), surrogates and code
points above `0x10FFFF`. Returns `none` exactly when the bytes are not
valid UTF-8. -/
def utf8Decode : List Nat → Option (List Char)
  | [] => some []
  | b :: rest =>
    if b < 0x80 then
      (utf8Decode rest).map fun cs => Char.ofNat b :: cs
    else if b < 0xC2 then none
    else if b < 0xE0 then
      match rest with
      | b1 :: rest1 =>
        if isUtf8Cont b1 then
          (utf8Decode rest1).map fun cs =>
            Char.ofNat ((b - 0xC0) <<< 6 ||| (b1 - 0x80)) :: cs
        else none
      | [] => none
    else if b < 0xF0 then
      match rest with
      | b1 :: b2 :: rest2 =>
        if isUtf8Cont b1 && isUtf8Cont b2 then
          let cp := (b - 0xE0) <<< 12 ||| (b1 - 0x80) <<< 6 ||| (b2 - 0x80)
          if cp < 0x800 then none
          else if 0xD800 ≤ cp && cp < 0xE000 then none
          else (utf8Decode rest2).map fun cs => Char.ofNat cp :: cs
        else none
      | _ => none
    else if b < 0xF5 then
      match rest with
      | b1 :: b2 :: b3 :: rest3 =>
        if isUtf8Cont b1 && isUtf8Cont b2 && isUtf8Cont b3 then
          let cp := (b - 0xF0) <<< 18 ||| (b1 - 0x80) <<< 12 |||
                    (b2 - 0x80) <<< 6 ||| (b3 - 0x80)
          if cp < 0x10000 then none
          else if 0x110000 ≤ cp then none
          else (utf8Decode rest3).map fun cs => Char.ofNat cp :: cs
        else none
      | _ => none
    else none

/-- `String::from_utf8` on a byte sequence, yielding a `String` on valid
UTF-8 input and `none` otherwise. -/
def utf8DecodeString (bytes : List Nat) : Option String :=
  (utf8Decode bytes).map fun cs => String.mk cs

/-- The policy configured for one standard stream of a child process
(Rust `std::process::Stdio`): inherit from the parent, discard, or pipe. -/
inductive StdioPolicy where
  | inheritParent
  | null
  | piped
deriving DecidableEq, Repr

/-- The environment a command passes to its child: either the caller's own
environment is inherited, or an explicit variable list is used. `env_clear`
switches a command to an explicit empty list. -/
inductive EnvSpec where
  | inheritParent
  | explicitVars (vars : List (String × String))
deriving DecidableEq, Repr

/-- Given the command's environment specification and the caller's actual
environment, the variable list the spawned child observes. -/
def resolvedEnv (e : EnvSpec) (callerEnv : List (String × String)) :
    List (String × String) :=
  match e with
  | .inheritParent => callerEnv
  | .explicitVars vars => vars

/-- The observable launch profile accumulated on a `tokio::process::Command`
by its builder methods: program, arguments, working directory, environment,
the three standard-stream policies, and the kill-on-drop flag. -/
structure CommandSpec where
  program : String
  args : List String
  currentDir : Option String
  env : EnvSpec
  stdin : StdioPolicy
  stdout : StdioPolicy
  stderr : StdioPolicy
  killOnDrop : Bool
deriving DecidableEq, Repr

/-- `Command::new(program)`: no arguments, inherit the caller's working
directory and environment, inherit all three standard streams, and do not
kill the child when the handle is dropped. -/
def commandNew (program : String) : CommandSpec :=
  { program := program
    args := []
    currentDir := none
    env := EnvSpec.inheritParent
    stdin := StdioPolicy.inheritParent
    stdout := StdioPolicy.inheritParent
    stderr := StdioPolicy.inheritParent
    killOnDrop := false }

/-- `StoneConfig` from `starknet-prove-stone/src/lib.rs`: the working
directory and the command to spawn. -/
structure StoneConfig where
  workingDirectory : String
  command : String
deriving DecidableEq, Repr

/-- `StoneConfig::default()`: current directory and `cpu_air_prover`. -/
def StoneConfig.defaultConfig : StoneConfig :=
  { workingDirectory := ".", command := "cpu_air_prover" }

/-- The fixed basename of the proof output file. -/
def PROOF_FILE : String := "proof_file.json"

/-- The fixed basename of the private input file. -/
def PRIVATE_INPUT_FILE : String := "private_input_file.json"

/-- The fixed basename of the public input file. -/
def PUBLIC_INPUT_FILE : String := "public_input_file.json"

/-- The fixed basename of the prover configuration file. -/
def PROVER_CONFIG_FILE : String := "prover_config.json"

/-- The fixed basename of the parameter file. -/
def PARAMETER_FILE : String := "parameter_file.json"

/-- The fixed basename of the raw memory buffer file. -/
def MEMORY_FILE : String := "memory_file.bin"

/-- The fixed basename of the raw trace buffer file. -/
def TRACE_FILE : String := "trace_file.bin"

/-- `make_command` from `starknet-prove-stone/src/lib.rs`: builds the
command used to spawn the prover — current directory set to the configured
working directory, the environment cleared, the five fixed flag/basename
argument pairs, standard output and input discarded, standard error piped,
and kill-on-drop enabled. -/
def make_command (config : StoneConfig) : CommandSpec :=
  let command := commandNew config.command
  { command with
      currentDir := some config.workingDirectory
      env := EnvSpec.explicitVars []
      args := ["--out_file", PROOF_FILE,
               "--private_input_file", PRIVATE_INPUT_FILE,
               "--public_input_file", PUBLIC_INPUT_FILE,
               "--prover-config-file", PROVER_CONFIG_FILE,
               "--parameter_file", PARAMETER_FILE]
      stdout := StdioPolicy.null
      stdin := StdioPolicy.null
      stderr := StdioPolicy.piped
      killOnDrop := true }

/-- The empty placeholder `Proof` type from `starknet-prove-core`. -/
structure Proof where
deriving DecidableEq, Repr

/-- A system-level error, as carried by `std::io::Error`; only its identity
matters to this development. -/
structure SysError where
  code : Nat
deriving DecidableEq, Repr

/-- The `Error` enum of `starknet-prove-stone`: a system error, an
unexpected exit code carrying the exit status and the decoded standard
error text, or a JSON (de)serialization error. -/
inductive StoneError where
  | ioErr (e : SysError)
  | unexpectedErrorCode (status : Nat) (message : String)
  | serde (msg : String)
deriving DecidableEq, Repr

/-- `StoneProver`: the stored working directory and the preconfigured
command. -/
structure StoneProver where
  working_directory : String
  command : CommandSpec
deriving DecidableEq, Repr

/-- `StoneProver::new`: builds the command via `make_command` and keeps the
configured working directory. -/
def StoneProver.new (config : StoneConfig) : StoneProver :=
  { working_directory := config.workingDirectory
    command := make_command config }

/-- The environment one call to `prove` runs against: the outcome of the
write phase, of the spawn and of the wait system calls, the child's exit
status (`0` means success), and the captured standard-error stream (whether
reading it succeeds, and the bytes it holds). -/
structure ProcWorld where
  writeOutcome : Option StoneError
  spawnOutcome : Option SysError
  waitOutcome : Option SysError
  exitStatus : Nat
  stderrReadable : Bool
  stderrBytes : List Nat
deriving DecidableEq, Repr

/-- A captured standard-error handle taken from a spawned child. -/
structure StderrHandle where
  readable : Bool
  bytes : List Nat
deriving DecidableEq, Repr

/-- A spawned child process as `prove` observes it: the optional captured
standard-error handle. -/
structure ChildProc where
  stderrHandle : Option StderrHandle
deriving DecidableEq, Repr

/-- Spawning a child, following the documented `std`/`tokio` semantics:
the `stderr` field of the spawned child is populated exactly when the
command configured the standard-error stream as piped. -/
def spawnChild (cmd : CommandSpec) (w : ProcWorld) : ChildProc :=
  { stderrHandle :=
      if cmd.stderr = StdioPolicy.piped then
        some { readable := w.stderrReadable, bytes := w.stderrBytes }
      else none }

/-- `error_message` from `starknet-prove-stone/src/lib.rs`: drain the
standard-error stream to completion; if reading fails return the
read-failure sentinel, otherwise decode the bytes as UTF-8, substituting
the invalid-UTF-8 sentinel when decoding fails. -/
def error_message (h : StderrHandle) : String :=
  if h.readable then
    match utf8DecodeString h.bytes with
    | some s => s
    | none => "<error message is not valid UTF-8>"
  else "<failed to read error message>"

/-- The observable phases `prove` steps through, in order of execution. -/
inductive Event where
  | writePhase
  | spawnPhase
  | waitPhase
  | classifyPhase
deriving DecidableEq, Repr

/-- What one call to `prove` amounts to: either a returned `Result`, or a
fatal defect (the `unwrap` of the captured standard-error handle failing). -/
inductive ProveOutcome where
  | result (r : RustResult StoneError Proof)
  | fatal
deriving DecidableEq, Repr

/-- `StoneProver::prove`: write the inputs to the working directory
(returning its failure without spawning anything), spawn the configured
command, take and unwrap the captured standard-error handle, await the
child's termination, and classify the outcome — a non-zero status yields
`Error::UnexpectedErrorCode(status, error_message(stderr))`, a zero status
yields the placeholder `Proof`. The returned event list records which
phases ran, in order. -/
def StoneProver.prove (p : StoneProver) (w : ProcWorld) :
    ProveOutcome × List Event :=
  match w.writeOutcome with
  | some e => (ProveOutcome.result (RustResult.err e), [Event.writePhase])
  | none =>
    match w.spawnOutcome with
    | some e =>
      (ProveOutcome.result (RustResult.err (StoneError.ioErr e)),
       [Event.writePhase, Event.spawnPhase])
    | none =>
      match (spawnChild p.command w).stderrHandle with
      | none => (ProveOutcome.fatal, [Event.writePhase, Event.spawnPhase])
      | some h =>
        match w.waitOutcome with
        | some e =>
          (ProveOutcome.result (RustResult.err (StoneError.ioErr e)),
           [Event.writePhase, Event.spawnPhase, Event.waitPhase])
        | none =>
          if w.exitStatus ≠ 0 then
            (ProveOutcome.result (RustResult.err
               (StoneError.unexpectedErrorCode w.exitStatus (error_message h))),
             [Event.writePhase, Event.spawnPhase, Event.waitPhase,
              Event.classifyPhase])
          else
            (ProveOutcome.result (RustResult.ok {}),
             [Event.writePhase, Event.spawnPhase, Event.waitPhase,
              Event.classifyPhase])

/-- Whether a child is left orphaned when its owning operation is dropped,
following the documented `tokio` semantics of `kill_on_drop`: a child that
has not yet exited survives the drop exactly when kill-on-drop is not set
on the command it was spawned from. -/
def orphanAfterAbandon (cmd : CommandSpec) (alreadyExited : Bool) : Bool :=
  !alreadyExited && !cmd.killOnDrop

/-- C3: For each of the nine `Layout` variants, parsing the canonical name
yields the variant back (so `name(parse(name(v))) = name(v)`), the
canonical names are exactly the nine strings of the table, and parsing any
string outside the table fails with the payload-less error. -/
theorem layout_name_parse_roundtrip :
    (∀ v : Layout, Layout.fromStr v.name = RustResult.ok v) ∧
    (∀ v : Layout, v.name ∈ Layout.canonicalNames) ∧
    (∀ s ∈ Layout.canonicalNames, ∃ v : Layout, v.name = s) ∧
    (∀ s : String, s ∉ Layout.canonicalNames →
      Layout.fromStr s = RustResult.err ()) := by
  refine ⟨?_, ?_, ?_, ?_⟩
  · intro v; cases v <;> rfl
  · intro v; cases v <;> simp [Layout.name, Layout.canonicalNames]
  · intro s hs
    simp only [Layout.canonicalNames, List.mem_cons, List.not_mem_nil,
      or_false] at hs
    rcases hs with rfl | rfl | rfl | rfl | rfl | rfl | rfl | rfl | rfl
    exacts [⟨.Plain, rfl⟩, ⟨.Small, rfl⟩, ⟨.Dex, rfl⟩, ⟨.Recursive, rfl⟩,
      ⟨.Starknet, rfl⟩, ⟨.RecursiveLargeOutput, rfl⟩, ⟨.AllCairo, rfl⟩,
      ⟨.AllSolidity, rfl⟩, ⟨.StarknetWithKeccak, rfl⟩]
  · intro s hs
    simp only [Layout.canonicalNames, List.mem_cons, List.not_mem_nil,
      or_false, not_or] at hs
    obtain ⟨h1, h2, h3, h4, h5, h6, h7, h8, h9⟩ := hs
    simp [Layout.fromStr, h1, h2, h3, h4, h5, h6, h7, h8, h9]

theorem layout_name_parse_roundtrip_witness :
    Layout.fromStr "bogus" = RustResult.err () :=
  layout_name_parse_roundtrip.2.2.2 "bogus" (by decide)

/-- C10: For every `Layout` variant, the `Display` implementation (which
delegates to `Formatter::pad`) produces, under default formatting options,
exactly the canonical name returned by `Layout::name`. -/
theorem layout_display_matches_name (v : Layout) :
    Layout.fmtDisplay FmtSpec.default v = v.name := rfl

/-- C2: For every configuration, the command the orchestrator launches has
program equal to the configured command, exactly the five fixed
flag/basename argument pairs, the configured working directory, an empty
environment regardless of the caller's environment, standard input and
output discarded, and standard error captured. -/
theorem make_command_launch_profile (cfg : StoneConfig)
    (callerEnv : List (String × String)) :
    (StoneProver.new cfg).command.program = cfg.command ∧
    (StoneProver.new cfg).command.args =
      ["--out_file", "proof_file.json",
       "--private_input_file", "private_input_file.json",
       "--public_input_file", "public_input_file.json",
       "--prover-config-file", "prover_config.json",
       "--parameter_file", "parameter_file.json"] ∧
    (StoneProver.new cfg).command.currentDir = some cfg.workingDirectory ∧
    resolvedEnv (StoneProver.new cfg).command.env callerEnv = [] ∧
    (StoneProver.new cfg).command.stdin = StdioPolicy.null ∧
    (StoneProver.new cfg).command.stdout = StdioPolicy.null ∧
    (StoneProver.new cfg).command.stderr = StdioPolicy.piped :=
  ⟨rfl, rfl, rfl, rfl, rfl, rfl, rfl⟩

/-- C4: The command the orchestrator spawns from always carries the
kill-on-drop flag, so abandoning the in-flight operation (dropping the
owned child handle) before the child has exited never leaves an orphaned
process, whatever the configuration. -/
theorem abandoned_child_not_orphaned (cfg : StoneConfig)
    (alreadyExited : Bool) :
    (StoneProver.new cfg).command.killOnDrop = true ∧
    orphanAfterAbandon (StoneProver.new cfg).command alreadyExited = false := by
  refine ⟨rfl, ?_⟩
  cases alreadyExited <;> rfl

/-- C9: After spawning with the orchestrator's launch profile the captured
standard-error handle always exists, so the unconditional `unwrap` never
fails: `prove` always returns a `Result` and never hits the fatal-defect
path, in every environment. -/
theorem stderr_capture_invariant (cfg : StoneConfig) (w : ProcWorld) :
    ((spawnChild (StoneProver.new cfg).command w).stderrHandle).isSome = true ∧
    ∃ r tr, StoneProver.prove (StoneProver.new cfg) w =
      (ProveOutcome.result r, tr) := by
  refine ⟨rfl, ?_⟩
  obtain ⟨wo, so, wto, st, r, bs⟩ := w
  cases wo <;> cases so <;> cases wto <;> by_cases hst : st = 0 <;>
    simp [StoneProver.prove, spawnChild, error_message, hst,
      StoneProver.new, make_command, commandNew]

/-- C1: For every non-zero exit status and every stderr byte sequence that
is valid text, `prove` returns the unexpected-exit-code error whose status
equals the child's exit status exactly and whose message equals the full
captured standard-error stream decoded as text. -/
theorem prove_nonzero_reports_status_and_stderr (cfg : StoneConfig)
    (w : ProcWorld) (m : String)
    (hw : w.writeOutcome = none) (hs : w.spawnOutcome = none)
    (hwt : w.waitOutcome = none) (hst : w.exitStatus ≠ 0)
    (hr : w.stderrReadable = true)
    (hd : utf8DecodeString w.stderrBytes = some m) :
    (StoneProver.prove (StoneProver.new cfg) w).1 =
      ProveOutcome.result (RustResult.err
        (StoneError.unexpectedErrorCode w.exitStatus m)) := by
  obtain ⟨wo, so, wto, st, r, bs⟩ := w
  simp only at hw hs hwt hst hr hd
  subst hw hs hwt hr
  simp [StoneProver.prove, spawnChild, error_message, hst, hd,
    StoneProver.new, make_command, commandNew]

theorem prove_nonzero_reports_status_and_stderr_witness :
    (StoneProver.prove (StoneProver.new StoneConfig.defaultConfig)
        { writeOutcome := none, spawnOutcome := none, waitOutcome := none,
          exitStatus := 2, stderrReadable := true,
          stderrBytes := [98, 111, 111, 109] }).1 =
      ProveOutcome.result (RustResult.err
        (StoneError.unexpectedErrorCode 2 "boom")) :=
  prove_nonzero_reports_status_and_stderr StoneConfig.defaultConfig _ "boom"
    rfl rfl rfl (by decide) rfl (by decide)

/-- C5: Whenever the external process exits with status 0 (and the write,
spawn and wait steps succeed), `prove` returns success carrying the empty
placeholder `Proof`, whatever the standard-error stream holds and whether
or not it is readable: the stream is not consulted on this path. -/
theorem prove_zero_exit_success (cfg : StoneConfig) (w : ProcWorld)
    (hw : w.writeOutcome = none) (hs : w.spawnOutcome = none)
    (hwt : w.waitOutcome = none) (hst : w.exitStatus = 0) :
    (StoneProver.prove (StoneProver.new cfg) w).1 =
      ProveOutcome.result (RustResult.ok {}) := by
  obtain ⟨wo, so, wto, st, r, bs⟩ := w
  simp only at hw hs hwt hst
  subst hw hs hwt hst
  simp [StoneProver.prove, spawnChild, StoneProver.new, make_command,
    commandNew]

theorem prove_zero_exit_success_witness :
    (StoneProver.prove (StoneProver.new StoneConfig.defaultConfig)
        { writeOutcome := none, spawnOutcome := none, waitOutcome := none,
          exitStatus := 0, stderrReadable := false,
          stderrBytes := [255] }).1 =
      ProveOutcome.result (RustResult.ok {}) :=
  prove_zero_exit_success StoneConfig.defaultConfig _ rfl rfl rfl rfl

/-- C7: On non-zero termination with standard-error bytes that are not
valid text, or with an unreadable standard-error stream, `prove` does not
crash: it returns the unexpected-exit-code error whose message is the
fixed sentinel for the failing case (the invalid-UTF-8 sentinel when the
stream was read, the read-failure sentinel when it was not). -/
theorem prove_sentinel_on_undecodable_stderr (cfg : StoneConfig)
    (w : ProcWorld)
    (hw : w.writeOutcome = none) (hs : w.spawnOutcome = none)
    (hwt : w.waitOutcome = none) (hst : w.exitStatus ≠ 0)
    (hbad : w.stderrReadable = false ∨ utf8DecodeString w.stderrBytes = none) :
    (StoneProver.prove (StoneProver.new cfg) w).1 =
      ProveOutcome.result (RustResult.err
        (StoneError.unexpectedErrorCode w.exitStatus
          (if w.stderrReadable then "<error message is not valid UTF-8>"
           else "<failed to read error message>"))) := by
  obtain ⟨wo, so, wto, st, r, bs⟩ := w
  simp only at hw hs hwt hst hbad ⊢
  subst hw hs hwt
  rcases hbad with hbad | hbad
  · subst hbad
    simp [StoneProver.prove, spawnChild, error_message, hst,
      StoneProver.new, make_command, commandNew]
  · cases r <;>
      simp [StoneProver.prove, spawnChild, error_message, hst, hbad,
        StoneProver.new, make_command, commandNew]

theorem prove_sentinel_on_undecodable_stderr_witness :
    (StoneProver.prove (StoneProver.new StoneConfig.defaultConfig)
        { writeOutcome := none, spawnOutcome := none, waitOutcome := none,
          exitStatus := 2, stderrReadable := true,
          stderrBytes := [255] }).1 =
      ProveOutcome.result (RustResult.err
        (StoneError.unexpectedErrorCode 2
          "<error message is not valid UTF-8>")) :=
  prove_sentinel_on_undecodable_stderr StoneConfig.defaultConfig _
    rfl rfl rfl (by decide) (Or.inr (by decide))

/-- C8: In every execution of `prove` the write phase fully precedes the
launch: a write-phase failure is returned as the error with no spawn ever
happening, any run that reaches the spawn had a successful write phase
immediately before it, and any run that reaches outcome classification did
so only after the wait on the child completed. -/
theorem prove_phase_ordering (cfg : StoneConfig) (w : ProcWorld) :
    (∀ e, w.writeOutcome = some e →
        StoneProver.prove (StoneProver.new cfg) w =
          (ProveOutcome.result (RustResult.err e), [Event.writePhase])) ∧
    (Event.spawnPhase ∈ (StoneProver.prove (StoneProver.new cfg) w).2 →
        w.writeOutcome = none ∧
        (StoneProver.prove (StoneProver.new cfg) w).2.take 2 =
          [Event.writePhase, Event.spawnPhase]) ∧
    (Event.classifyPhase ∈ (StoneProver.prove (StoneProver.new cfg) w).2 →
        (StoneProver.prove (StoneProver.new cfg) w).2 =
          [Event.writePhase, Event.spawnPhase, Event.waitPhase,
           Event.classifyPhase]) := by
  obtain ⟨wo, so, wto, st, r, bs⟩ := w
  cases wo <;> cases so <;> cases wto <;> by_cases hst : st = 0 <;>
    simp [StoneProver.prove, spawnChild, hst, StoneProver.new,
      make_command, commandNew]

theorem prove_phase_ordering_witness :
    StoneProver.prove (StoneProver.new StoneConfig.defaultConfig)
        { writeOutcome := some (StoneError.ioErr { code := 5 }),
          spawnOutcome := none, waitOutcome := none,
          exitStatus := 0, stderrReadable := true, stderrBytes := [] } =
      (ProveOutcome.result (RustResult.err (StoneError.ioErr { code := 5 })),
       [Event.writePhase]) :=
  (prove_phase_ordering StoneConfig.defaultConfig _).1
    (StoneError.ioErr { code := 5 }) rfl
